import Mathlib

/-!
Verification of the Magnum excerpt: the `Magnum::Math::Complex` value type
(src/src/Math/Complex.h), the `VertexColorGL` shader state machine
(src/src/Magnum/Shaders/VertexColorGL.cpp) and the `DistanceFieldVectorGL`
shader contract (src/src/Magnum/Shaders/DistanceFieldVectorGL.h), as a shallow
embedding.  The scalar type `T` (float in the instantiations used by the code)
is embedded as `ℚ`, so all arithmetic is exact; the epsilon-based comparison of
`MathTypeTraits<T>::equals` is kept as an explicit tolerance parameter.
-/

set_option autoImplicit false

namespace Magnum

namespace Math

/-- `Magnum::Math::Complex<T>` (src/src/Math/Complex.h:36-176) with `T := ℚ`:
a pair of real/imaginary components.  The accessors `real()`/`imaginary()`
(Complex.h:70-73) are the structure projections. -/
structure Complex where
  real : ℚ
  imaginary : ℚ
  deriving DecidableEq, Repr

/-- The default constructor `Complex()` (Complex.h:47): `c = 0 + i0`. -/
def Complex.zero : Complex := ⟨0, 0⟩

/-- Modelled from the spec: `Math/MathTypeTraits.h` is not under src.  Per the
spec ("equality is approximate (epsilon-based)... values whose components
differ by less than the type's tolerance compare equal"), two scalars compare
equal when their difference is smaller in magnitude than the tolerance. -/
def equalsApprox (eps a b : ℚ) : Bool := |a - b| < eps

/-- `Complex::operator==` (Complex.h:59-62): componentwise
`MathTypeTraits<T>::equals`. -/
def Complex.beq (eps : ℚ) (a other : Complex) : Bool :=
  equalsApprox eps a.real other.real && equalsApprox eps a.imaginary other.imaginary

/-- `Complex::operator!=` (Complex.h:65-67): the negation of `operator==`. -/
def Complex.bne (eps : ℚ) (a other : Complex) : Bool :=
  !(Complex.beq eps a other)

/-- `Complex::operator+=` (Complex.h:82-86). -/
def Complex.addAssign (a other : Complex) : Complex :=
  ⟨a.real + other.real, a.imaginary + other.imaginary⟩

/-- `Complex::operator+` (Complex.h:93-95): a copy, then `operator+=`. -/
def Complex.add (a other : Complex) : Complex := a.addAssign other

/-- Unary `Complex::operator-` (Complex.h:104-106). -/
def Complex.neg (a : Complex) : Complex := ⟨-a.real, -a.imaginary⟩

/-- `Complex::operator-=` (Complex.h:115-119). -/
def Complex.subAssign (a other : Complex) : Complex :=
  ⟨a.real - other.real, a.imaginary - other.imaginary⟩

/-- `Complex::operator-` (Complex.h:126-128): a copy, then `operator-=`. -/
def Complex.sub (a other : Complex) : Complex := a.subAssign other

/-- `Complex::operator*=(T)` (Complex.h:137-141). -/
def Complex.mulAssign (a : Complex) (scalar : ℚ) : Complex :=
  ⟨a.real * scalar, a.imaginary * scalar⟩

/-- `Complex::operator*(T)` (Complex.h:148-150): a copy, then `operator*=`. -/
def Complex.mul (a : Complex) (scalar : ℚ) : Complex := a.mulAssign scalar

/-- `Complex::operator/=(T)` (Complex.h:159-163). -/
def Complex.divAssign (a : Complex) (scalar : ℚ) : Complex :=
  ⟨a.real / scalar, a.imaginary / scalar⟩

/-- `Complex::operator/(T)` (Complex.h:170-172): a copy, then `operator/=`. -/
def Complex.div (a : Complex) (scalar : ℚ) : Complex := a.divAssign scalar

/-- Free `operator*(T, const Complex<T>&)` (Complex.h:183-185): same as
`complex * scalar`. -/
def scalarMul (scalar : ℚ) (complex : Complex) : Complex := complex.mul scalar

/-- Free `operator/(T, const Complex<T>&)` (Complex.h:195-197): the
componentwise quotient `(scalar/real, scalar/imaginary)`. -/
def scalarDiv (scalar : ℚ) (complex : Complex) : Complex :=
  ⟨scalar / complex.real, scalar / complex.imaginary⟩

/-- Stated from the claim wording for comparison only: the scalar `s` times
the mathematical multiplicative inverse of the complex number `c`, i.e.
`s * conj(c) / |c|^2`. -/
def mathematicalReciprocalScaled (s : ℚ) (c : Complex) : Complex :=
  ⟨s * c.real / (c.real * c.real + c.imaginary * c.imaginary),
   s * (-c.imaginary) / (c.real * c.real + c.imaginary * c.imaginary)⟩

/-- C6: componentwise arithmetic of `Complex`: `a + b = (ra+rb, ia+ib)`,
`a - b = (ra-rb, ia-ib)`, `a * s` and `s * a` are `(ra*s, ia*s)`,
`a / s = (ra/s, ia/s)`, `-a = (-ra, -ia)`; the compound-assignment forms
produce the same values, and `real()`/`imaginary()` return the stored
components. -/
theorem Complex.componentwise_arithmetic (a b : Complex) (s r i : ℚ) :
    a.add b = ⟨a.real + b.real, a.imaginary + b.imaginary⟩ ∧
    a.sub b = ⟨a.real - b.real, a.imaginary - b.imaginary⟩ ∧
    a.mul s = ⟨a.real * s, a.imaginary * s⟩ ∧
    scalarMul s a = ⟨a.real * s, a.imaginary * s⟩ ∧
    a.div s = ⟨a.real / s, a.imaginary / s⟩ ∧
    a.neg = ⟨-a.real, -a.imaginary⟩ ∧
    a.addAssign b = a.add b ∧
    a.subAssign b = a.sub b ∧
    a.mulAssign s = a.mul s ∧
    a.divAssign s = a.div s ∧
    (Complex.mk r i).real = r ∧
    (Complex.mk r i).imaginary = i :=
  ⟨rfl, rfl, rfl, rfl, rfl, rfl, rfl, rfl, rfl, rfl, rfl, rfl⟩

/-- C7: algebraic relations of `Complex`: `(a+b)-b == a` within the tolerance,
`(a*s)/s == a` for nonzero `s`, `-(-a) = a` exactly, `==` is symmetric and
epsilon-tolerant, and `!=` is the exact negation of `==`. -/
theorem Complex.algebraic_relations (eps s : ℚ) (a b : Complex)
    (heps : 0 < eps) (hs : s ≠ 0) :
    Complex.beq eps ((a.add b).sub b) a = true ∧
    Complex.beq eps ((a.mul s).div s) a = true ∧
    a.neg.neg = a ∧
    Complex.beq eps a b = Complex.beq eps b a ∧
    ((|a.real - b.real| < eps ∧ |a.imaginary - b.imaginary| < eps) →
      Complex.beq eps a b = true) ∧
    Complex.bne eps a b = !(Complex.beq eps a b) := by
  refine ⟨?_, ?_, ?_, ?_, ?_, rfl⟩
  · simp [Complex.beq, Complex.add, Complex.addAssign, Complex.sub,
      Complex.subAssign, equalsApprox, add_sub_cancel_right, sub_self,
      abs_zero, heps]
  · simp [Complex.beq, Complex.mul, Complex.mulAssign, Complex.div,
      Complex.divAssign, equalsApprox, mul_div_cancel_right₀ _ hs, sub_self,
      abs_zero, heps]
  · cases a with
    | mk r i => simp [Complex.neg]
  · simp [Complex.beq, equalsApprox, abs_sub_comm]
  · intro h
    simp [Complex.beq, equalsApprox, h.1, h.2]

/-- Witness for C7 at `eps = 1`, `s = 2`, `a = (1, 2)`, `b = (3, 4)`. -/
theorem Complex.algebraic_relations_witness :
    (0:ℚ) < 1 ∧ (2:ℚ) ≠ 0 ∧
    (Complex.beq 1 ((Complex.add ⟨1, 2⟩ ⟨3, 4⟩).sub ⟨3, 4⟩) ⟨1, 2⟩ = true ∧
     Complex.beq 1 ((Complex.mul ⟨1, 2⟩ 2).div 2) ⟨1, 2⟩ = true ∧
     (Complex.neg (Complex.neg ⟨1, 2⟩)) = ⟨1, 2⟩ ∧
     Complex.beq 1 ⟨1, 2⟩ ⟨3, 4⟩ = Complex.beq 1 ⟨3, 4⟩ ⟨1, 2⟩ ∧
     ((|(Complex.mk 1 2).real - (Complex.mk 3 4).real| < 1 ∧
       |(Complex.mk 1 2).imaginary - (Complex.mk 3 4).imaginary| < 1) →
       Complex.beq 1 ⟨1, 2⟩ ⟨3, 4⟩ = true) ∧
     Complex.bne 1 ⟨1, 2⟩ ⟨3, 4⟩ = !(Complex.beq 1 ⟨1, 2⟩ ⟨3, 4⟩)) :=
  ⟨by norm_num, by norm_num,
   Complex.algebraic_relations 1 2 ⟨1, 2⟩ ⟨3, 4⟩ (by norm_num) (by norm_num)⟩

/-- C10: the free `operator/(T, const Complex<T>&)` is the componentwise
quotient `(s/real, s/imaginary)`, not the scaled mathematical complex
reciprocal; at `s = 1`, `c = (1, 1)` (both components nonzero) the two
differ: componentwise gives `(1, 1)` while the reciprocal gives
`(1/2, -1/2)`. -/
theorem scalarDiv_componentwise_not_reciprocal (s : ℚ) (c : Complex) :
    scalarDiv s c = ⟨s / c.real, s / c.imaginary⟩ ∧
    scalarDiv 1 ⟨1, 1⟩ = ⟨1, 1⟩ ∧
    mathematicalReciprocalScaled 1 ⟨1, 1⟩ = ⟨1/2, -1/2⟩ ∧
    scalarDiv 1 ⟨1, 1⟩ ≠ mathematicalReciprocalScaled 1 ⟨1, 1⟩ := by
  have h1 : scalarDiv 1 ⟨1, 1⟩ = (⟨1, 1⟩ : Complex) := by simp [scalarDiv]
  have h2 : mathematicalReciprocalScaled 1 ⟨1, 1⟩ = (⟨1/2, -1/2⟩ : Complex) := by
    simp [mathematicalReciprocalScaled]
    norm_num
  refine ⟨rfl, h1, h2, ?_⟩
  rw [h1, h2]
  intro h
  have hre := congrArg Complex.real h
  norm_num at hre

end Math

namespace Shaders

/-- The two ways an operation of this library can fail, per the spec's error
tiers: a `CORRADE_ASSERT`-style precondition violation (also used for the
fatal missing-extension check at construction), or a
`CORRADE_INTERNAL_ASSERT_OUTPUT`-style internal invariant violation (shader
compile/link failure).  Both abort, so a failing call produces no successor
state. -/
inductive Failure where
  | precondition
  | internalAssert
  deriving DecidableEq, Repr

/-- Corrade `EnumSet::operator>=`: `flags >= flag` holds when `flags` contains
every bit of `flag`. -/
def hasFlag (flags flag : Nat) : Bool := flags &&& flag == flag

/-- If `a`'s bits include `b`'s bits, then a flag set containing `a` also
contains `b`. -/
theorem hasFlag_mono (flags a b : Nat) (hab : a &&& b = b)
    (h : hasFlag flags a = true) : hasFlag flags b = true := by
  have ha : flags &&& a = a := by simpa [hasFlag] using h
  have : flags &&& b = b := by
    calc flags &&& b = flags &&& (a &&& b) := by rw [hab]
      _ = flags &&& a &&& b := (Nat.land_assoc flags a b).symm
      _ = a &&& b := by rw [ha]
      _ = b := hab
  simpa [hasFlag] using this

/-- Modelled from the spec: `VertexColorGL.h` is not under src.  Per the spec
invariant ("multi-draw implies uniform-buffer usage") and the comment at
VertexColorGL.cpp:241 ("MultiDraw, superset of UniformBuffers"), the flags are
an `UnsignedByte` bitmask where `UniformBuffers` is bit 0. -/
def VertexColorGLFlag.UniformBuffers : Nat := 1

/-- Modelled from the spec: `MultiDraw` sets bit 1 in addition to every bit of
`UniformBuffers`, making it a bitwise superset (VertexColorGL.cpp:241). -/
def VertexColorGLFlag.MultiDraw : Nat := VertexColorGLFlag.UniformBuffers ||| (1 <<< 1)

/-- `DistanceFieldVectorGLFlag::TextureTransformation`
(DistanceFieldVectorGL.h:42). -/
def DistanceFieldVectorGLFlag.TextureTransformation : Nat := 1

/-- `DistanceFieldVectorGLFlag::UniformBuffers` (DistanceFieldVectorGL.h:44). -/
def DistanceFieldVectorGLFlag.UniformBuffers : Nat := 1 <<< 1

/-- A uniform payload, as passed to `AbstractShaderProgram::setUniform`.
Matrices are flattened to their entry list; the scalar type is `ℚ` as in the
`Complex` embedding. -/
inductive UniformValue where
  | uint (value : Nat)
  | matrix (entries : List ℚ)
  | color4 (r g b a : ℚ)
  | float (value : ℚ)
  | vector2 (x y : ℚ)
  deriving DecidableEq, Repr

/-- A GL-side effect issued by the shader wrappers: uniform uploads, attribute
location binding, uniform-block binding, and uniform-buffer binding (plain and
ranged, `GL::Buffer` objects being identified by a numeric handle). -/
inductive GLCmd where
  | setUniform (location : Int) (value : UniformValue)
  | bindAttribLocation (name : String)
  | setUniformBlockBinding (index : Nat) (binding : Int)
  | bindBuffer (binding : Int) (buffer : Nat)
  | bindBufferRange (binding : Int) (buffer : Nat) (offset size : Int)
  deriving DecidableEq, Repr

/-- The slice of the ambient GL context the `VertexColorGL` constructor
consults (GL/Context.h and GL/Extensions.h are external collaborators):
extension availability, the outcome of the driver-side compile and link steps,
and the uniform locations / block index the driver reports. -/
structure GLContext where
  arbUniformBufferObject : Bool
  arbShaderDrawParameters : Bool
  arbExplicitAttribLocation : Bool
  arbExplicitUniformLocation : Bool
  arbShadingLanguage420pack : Bool
  compileSucceeds : Bool
  linkSucceeds : Bool
  drawOffsetLocation : Int
  transformationProjectionMatrixLocation : Int
  transformationProjectionBlockIndex : Nat
  deriving DecidableEq, Repr

/-- The `TransformationProjectionBufferBinding` constant
(VertexColorGL.cpp:51-56). -/
def TransformationProjectionBufferBinding : Int := 1

/-- The state of a constructed `VertexColorGL<dimensions>` instance: the
stored `_flags` and `_drawCount`, the two uniform-location members, the
assembled vertex/fragment shader sources, and the log of GL commands issued so
far (most recent first). -/
structure VertexColorGL where
  flags : Nat
  drawCount : Nat
  transformationProjectionMatrixUniform : Int
  drawOffsetUniform : Int
  vertSources : List String
  fragSources : List String
  glLog : List GLCmd
  deriving DecidableEq, Repr

/-- The preprocessor defines the constructor prepends to the vertex shader
(VertexColorGL.cpp:109-118), in order: exactly one dimension define, then,
when `Flag::UniformBuffers` is set, the `UNIFORM_BUFFERS`/`DRAW_COUNT` define
(via `Utility::formatString`) followed by the `MULTI_DRAW` define (an empty
source when `Flag::MultiDraw` is unset). -/
def vertexShaderDefines (dimensions flags drawCount : Nat) : List String :=
  [if dimensions == 2 then "#define TWO_DIMENSIONS\n" else "#define THREE_DIMENSIONS\n"] ++
  (if hasFlag flags VertexColorGLFlag.UniformBuffers then
    ["#define UNIFORM_BUFFERS\n#define DRAW_COUNT " ++ toString drawCount ++ "\n",
     if hasFlag flags VertexColorGLFlag.MultiDraw then "#define MULTI_DRAW\n" else ""]
   else [])

/-- The `VertexColorGL` constructor (VertexColorGL.cpp:60-176, desktop GL
path): the zero-draw-count precondition assert (line 71), the two extension
asserts (lines 75-89), vertex/fragment source assembly (lines 109-122, the
resource-bundle sources represented by their resource keys), the compile
internal assert (line 124), attribute-location binding (lines 129-137), the
link internal assert (line 139), uniform-location lookup (lines 141-153) and
uniform-block binding (lines 155-163). -/
def VertexColorGL.construct (dimensions flags drawCount : Nat) (ctx : GLContext) :
    Except Failure VertexColorGL :=
  if hasFlag flags VertexColorGLFlag.UniformBuffers && (drawCount == 0) then
    .error .precondition
  else if hasFlag flags VertexColorGLFlag.UniformBuffers && !ctx.arbUniformBufferObject then
    .error .precondition
  else if hasFlag flags VertexColorGLFlag.MultiDraw && !ctx.arbShaderDrawParameters then
    .error .precondition
  else if !ctx.compileSucceeds then
    .error .internalAssert
  else
    let attribLog : List GLCmd :=
      if !ctx.arbExplicitAttribLocation then
        [GLCmd.bindAttribLocation "color", GLCmd.bindAttribLocation "position"]
      else []
    if !ctx.linkSucceeds then
      .error .internalAssert
    else
      let ubsSet := hasFlag flags VertexColorGLFlag.UniformBuffers
      let drawOffsetU : Int :=
        if !ctx.arbExplicitUniformLocation && ubsSet && decide (1 < drawCount) then
          ctx.drawOffsetLocation
        else 0
      let tpmU : Int :=
        if !ctx.arbExplicitUniformLocation && !ubsSet then
          ctx.transformationProjectionMatrixLocation
        else 0
      let blockLog : List GLCmd :=
        if ubsSet && !ctx.arbShadingLanguage420pack then
          [GLCmd.setUniformBlockBinding ctx.transformationProjectionBlockIndex
            TransformationProjectionBufferBinding]
        else []
      .ok ⟨flags, drawCount, tpmU, drawOffsetU,
        vertexShaderDefines dimensions flags drawCount ++ ["generic.glsl", "VertexColor.vert"],
        ["generic.glsl", "VertexColor.frag"],
        blockLog ++ attribLog⟩

/-- `VertexColorGL::setTransformationProjectionMatrix`
(VertexColorGL.cpp:182-189): asserts `Flag::UniformBuffers` is not set, then
uploads the matrix uniform and returns `*this`. -/
def VertexColorGL.setTransformationProjectionMatrix (s : VertexColorGL)
    (matrix : List ℚ) : Except Failure VertexColorGL :=
  if hasFlag s.flags VertexColorGLFlag.UniformBuffers then
    .error .precondition
  else
    .ok { s with glLog :=
      GLCmd.setUniform s.transformationProjectionMatrixUniform (UniformValue.matrix matrix) :: s.glLog }

/-- `VertexColorGL::setDrawOffset` (VertexColorGL.cpp:192-199): asserts
`Flag::UniformBuffers` is set and `offset < _drawCount`, uploads the offset
uniform when `_drawCount > 1`, and returns `*this`. -/
def VertexColorGL.setDrawOffset (s : VertexColorGL) (offset : Nat) :
    Except Failure VertexColorGL :=
  if !(hasFlag s.flags VertexColorGLFlag.UniformBuffers) then
    .error .precondition
  else if !(decide (offset < s.drawCount)) then
    .error .precondition
  else if 1 < s.drawCount then
    .ok { s with glLog := GLCmd.setUniform s.drawOffsetUniform (UniformValue.uint offset) :: s.glLog }
  else
    .ok s

/-- `VertexColorGL::bindTransformationProjectionBuffer(GL::Buffer&)`
(VertexColorGL.cpp:201-206): asserts `Flag::UniformBuffers` is set, then binds
the buffer to the uniform target at `TransformationProjectionBufferBinding`. -/
def VertexColorGL.bindTransformationProjectionBuffer (s : VertexColorGL)
    (buffer : Nat) : Except Failure VertexColorGL :=
  if !(hasFlag s.flags VertexColorGLFlag.UniformBuffers) then
    .error .precondition
  else
    .ok { s with glLog := GLCmd.bindBuffer TransformationProjectionBufferBinding buffer :: s.glLog }

/-- `VertexColorGL::bindTransformationProjectionBuffer(GL::Buffer&, GLintptr,
GLsizeiptr)` (VertexColorGL.cpp:208-213): the ranged overload. -/
def VertexColorGL.bindTransformationProjectionBufferRange (s : VertexColorGL)
    (buffer : Nat) (offset size : Int) : Except Failure VertexColorGL :=
  if !(hasFlag s.flags VertexColorGLFlag.UniformBuffers) then
    .error .precondition
  else
    .ok { s with glLog :=
      GLCmd.bindBufferRange TransformationProjectionBufferBinding buffer offset size :: s.glLog }

/-- The state of a constructed `DistanceFieldVectorGL<dimensions>` instance:
the members at DistanceFieldVectorGL.h:512-526 plus the GL command log. -/
structure DistanceFieldVectorGL where
  flags : Nat
  materialCount : Nat
  drawCount : Nat
  transformationProjectionMatrixUniform : Int
  textureMatrixUniform : Int
  colorUniform : Int
  outlineColorUniform : Int
  outlineRangeUniform : Int
  smoothnessUniform : Int
  drawOffsetUniform : Int
  glLog : List GLCmd
  deriving DecidableEq, Repr

/-- Modelled from the spec: the body of
`DistanceFieldVectorGL::setTransformationProjectionMatrix` is not under src;
per its contract (DistanceFieldVectorGL.h:276-287) it expects
`Flag::UniformBuffers` is not set and uploads the matrix uniform. -/
def DistanceFieldVectorGL.setTransformationProjectionMatrix
    (s : DistanceFieldVectorGL) (matrix : List ℚ) : Except Failure DistanceFieldVectorGL :=
  if hasFlag s.flags DistanceFieldVectorGLFlag.UniformBuffers then
    .error .precondition
  else
    .ok { s with glLog :=
      GLCmd.setUniform s.transformationProjectionMatrixUniform (UniformValue.matrix matrix) :: s.glLog }

/-- Modelled from the spec: the body of `DistanceFieldVectorGL::setColor` is
not under src; per its contract (DistanceFieldVectorGL.h:305-316) it expects
`Flag::UniformBuffers` is not set and uploads the fill color uniform. -/
def DistanceFieldVectorGL.setColor (s : DistanceFieldVectorGL)
    (r g b a : ℚ) : Except Failure DistanceFieldVectorGL :=
  if hasFlag s.flags DistanceFieldVectorGLFlag.UniformBuffers then
    .error .precondition
  else
    .ok { s with glLog :=
      GLCmd.setUniform s.colorUniform (UniformValue.color4 r g b a) :: s.glLog }

/-- Modelled from the spec: the body of `DistanceFieldVectorGL::setSmoothness`
is not under src; per its contract (DistanceFieldVectorGL.h:352-364) it
expects `Flag::UniformBuffers` is not set and uploads the smoothness uniform. -/
def DistanceFieldVectorGL.setSmoothness (s : DistanceFieldVectorGL)
    (value : ℚ) : Except Failure DistanceFieldVectorGL :=
  if hasFlag s.flags DistanceFieldVectorGLFlag.UniformBuffers then
    .error .precondition
  else
    .ok { s with glLog :=
      GLCmd.setUniform s.smoothnessUniform (UniformValue.float value) :: s.glLog }

/-- Modelled from the spec: the body of
`DistanceFieldVectorGL::setOutlineRange` is not under src; per its contract
(DistanceFieldVectorGL.h:332-350) it expects `Flag::UniformBuffers` is not set
and uploads the `(start, end)` pair to the outline-range uniform. -/
def DistanceFieldVectorGL.setOutlineRange (s : DistanceFieldVectorGL)
    (outlineStart outlineEnd : ℚ) : Except Failure DistanceFieldVectorGL :=
  if hasFlag s.flags DistanceFieldVectorGLFlag.UniformBuffers then
    .error .precondition
  else
    .ok { s with glLog :=
      GLCmd.setUniform s.outlineRangeUniform (UniformValue.vector2 outlineStart outlineEnd) :: s.glLog }

/-- Whether the configured outline is not drawn, from the `setOutlineRange`
contract (DistanceFieldVectorGL.h:336-342): the `start` parameter is where
fill ends and a possible outline starts, `end` is where the outline ends, and
when `end` is set to a value larger than `start` the outline is not drawn. -/
def outlineDisabled (outlineStart outlineEnd : ℚ) : Bool := outlineStart < outlineEnd

/-- The initial outline-range start value (DistanceFieldVectorGL.h:337). -/
def initialOutlineStart : ℚ := 1/2

/-- The initial outline-range end value (DistanceFieldVectorGL.h:341-342). -/
def initialOutlineEnd : ℚ := 1

/-- A sample uniform-buffer-mode shader: `Flag::UniformBuffers` set, draw
count 2. -/
def sampleShaderUB : VertexColorGL := ⟨1, 2, 0, 0, [], [], []⟩

/-- A sample direct-mode shader: no flags set, draw count 1. -/
def sampleShaderDirect : VertexColorGL := ⟨0, 1, 0, 0, [], [], []⟩

/-- A sample uniform-buffer-mode `DistanceFieldVectorGL` instance. -/
def sampleDFVUB : DistanceFieldVectorGL := ⟨2, 1, 1, 0, 1, 2, 3, 4, 5, 0, []⟩

/-- A sample direct-mode `DistanceFieldVectorGL` instance. -/
def sampleDFVDirect : DistanceFieldVectorGL := ⟨0, 1, 1, 0, 1, 2, 3, 4, 5, 0, []⟩

/-- A sample GL context with every consulted extension available and a
successful compile and link. -/
def defaultGLContext : GLContext := ⟨true, true, true, true, true, true, true, 7, 8, 0⟩

/-- C1: on a `VertexColorGL` shader in uniform-buffer mode with draw count
`N = drawCount`, `setDrawOffset(offset)` succeeds and returns the shader
itself (same flags and draw count, at most a uniform upload appended) for
every `offset < N`, and triggers a precondition assertion for every
`offset ≥ N`. -/
theorem VertexColorGL.setDrawOffset_bounds (s : VertexColorGL) (offset : Nat)
    (h : hasFlag s.flags VertexColorGLFlag.UniformBuffers = true) :
    (offset < s.drawCount → ∃ s2, VertexColorGL.setDrawOffset s offset = .ok s2 ∧
      s2.flags = s.flags ∧ s2.drawCount = s.drawCount) ∧
    (s.drawCount ≤ offset → VertexColorGL.setDrawOffset s offset = .error .precondition) := by
  constructor
  · intro hlt
    by_cases h1 : 1 < s.drawCount
    · refine ⟨{ s with glLog := GLCmd.setUniform s.drawOffsetUniform (UniformValue.uint offset) :: s.glLog }, ?_, rfl, rfl⟩
      simp [VertexColorGL.setDrawOffset, h, hlt, h1]
    · exact ⟨s, by simp [VertexColorGL.setDrawOffset, h, hlt, h1], rfl, rfl⟩
  · intro hge
    have hnot : ¬ offset < s.drawCount := Nat.not_lt.mpr hge
    simp [VertexColorGL.setDrawOffset, h, hnot]

/-- Witness for C1 on `sampleShaderUB` (draw count 2): offset 1 succeeds,
offset 5 asserts. -/
theorem VertexColorGL.setDrawOffset_bounds_witness :
    (∃ s2, VertexColorGL.setDrawOffset sampleShaderUB 1 = .ok s2 ∧
      s2.flags = sampleShaderUB.flags ∧ s2.drawCount = sampleShaderUB.drawCount) ∧
    VertexColorGL.setDrawOffset sampleShaderUB 5 = .error .precondition :=
  ⟨(VertexColorGL.setDrawOffset_bounds sampleShaderUB 1 (by decide)).1 (by decide),
   (VertexColorGL.setDrawOffset_bounds sampleShaderUB 5 (by decide)).2 (by decide)⟩

/-- C2: on a `VertexColorGL` shader whose flags do not contain
`Flag::UniformBuffers`, `setDrawOffset` and both overloads of
`bindTransformationProjectionBuffer` trigger a precondition assertion.  The
assertion aborts before any GL command is issued, which the embedding
captures by the failing call producing no successor state (and hence no
uniform or buffer-binding change). -/
theorem VertexColorGL.uniform_buffer_ops_assert (s : VertexColorGL)
    (offset buffer : Nat) (off size : Int)
    (h : hasFlag s.flags VertexColorGLFlag.UniformBuffers = false) :
    VertexColorGL.setDrawOffset s offset = .error .precondition ∧
    VertexColorGL.bindTransformationProjectionBuffer s buffer = .error .precondition ∧
    VertexColorGL.bindTransformationProjectionBufferRange s buffer off size = .error .precondition := by
  refine ⟨?_, ?_, ?_⟩ <;>
    simp [VertexColorGL.setDrawOffset, VertexColorGL.bindTransformationProjectionBuffer,
      VertexColorGL.bindTransformationProjectionBufferRange, h]

/-- Witness for C2 on `sampleShaderDirect` (no flags). -/
theorem VertexColorGL.uniform_buffer_ops_assert_witness :
    VertexColorGL.setDrawOffset sampleShaderDirect 0 = .error .precondition ∧
    VertexColorGL.bindTransformationProjectionBuffer sampleShaderDirect 7 = .error .precondition ∧
    VertexColorGL.bindTransformationProjectionBufferRange sampleShaderDirect 7 0 256 = .error .precondition :=
  VertexColorGL.uniform_buffer_ops_assert sampleShaderDirect 0 7 0 256 (by decide)

/-- C3: on shaders constructed with `Flag::UniformBuffers` set, every
direct-mode per-draw setter triggers a precondition assertion:
`setTransformationProjectionMatrix` on `VertexColorGL`, and the matrix,
color, smoothness and outline-range setters of `DistanceFieldVectorGL`.
Together with C2 this makes the two uniform-submission protocols mutually
exclusive per instance. -/
theorem direct_setters_assert (s : VertexColorGL) (d : DistanceFieldVectorGL)
    (matrix : List ℚ) (r g b a sm st en : ℚ)
    (hs : hasFlag s.flags VertexColorGLFlag.UniformBuffers = true)
    (hd : hasFlag d.flags DistanceFieldVectorGLFlag.UniformBuffers = true) :
    VertexColorGL.setTransformationProjectionMatrix s matrix = .error .precondition ∧
    DistanceFieldVectorGL.setTransformationProjectionMatrix d matrix = .error .precondition ∧
    DistanceFieldVectorGL.setColor d r g b a = .error .precondition ∧
    DistanceFieldVectorGL.setSmoothness d sm = .error .precondition ∧
    DistanceFieldVectorGL.setOutlineRange d st en = .error .precondition := by
  refine ⟨?_, ?_, ?_, ?_, ?_⟩ <;>
    simp [VertexColorGL.setTransformationProjectionMatrix,
      DistanceFieldVectorGL.setTransformationProjectionMatrix,
      DistanceFieldVectorGL.setColor, DistanceFieldVectorGL.setSmoothness,
      DistanceFieldVectorGL.setOutlineRange, hs, hd]

/-- Witness for C3 on `sampleShaderUB` and `sampleDFVUB`. -/
theorem direct_setters_assert_witness :
    VertexColorGL.setTransformationProjectionMatrix sampleShaderUB [1] = .error .precondition ∧
    DistanceFieldVectorGL.setTransformationProjectionMatrix sampleDFVUB [1] = .error .precondition ∧
    DistanceFieldVectorGL.setColor sampleDFVUB 1 1 1 1 = .error .precondition ∧
    DistanceFieldVectorGL.setSmoothness sampleDFVUB (1/25) = .error .precondition ∧
    DistanceFieldVectorGL.setOutlineRange sampleDFVUB (1/2) 1 = .error .precondition :=
  direct_setters_assert sampleShaderUB sampleDFVUB [1] 1 1 1 1 (1/25) (1/2) 1
    (by decide) (by decide)

/-- C4: constructing a `VertexColorGL` shader with `Flag::UniformBuffers` and
a zero draw count triggers a precondition assertion; without
`Flag::UniformBuffers` the draw count is not checked, so construction never
fails a precondition for any draw count (including zero). -/
theorem VertexColorGL.construct_drawCount_check (dimensions flags drawCount : Nat)
    (ctx : GLContext) :
    (hasFlag flags VertexColorGLFlag.UniformBuffers = true →
      VertexColorGL.construct dimensions flags 0 ctx = .error .precondition) ∧
    (hasFlag flags VertexColorGLFlag.UniformBuffers = false →
      VertexColorGL.construct dimensions flags drawCount ctx ≠ .error .precondition) := by
  constructor
  · intro h
    simp [VertexColorGL.construct, h]
  · intro h
    have hmd : hasFlag flags VertexColorGLFlag.MultiDraw = false := by
      cases hc : hasFlag flags VertexColorGLFlag.MultiDraw with
      | false => rfl
      | true =>
        have := hasFlag_mono flags VertexColorGLFlag.MultiDraw
          VertexColorGLFlag.UniformBuffers (by decide) hc
        rw [h] at this
        exact absurd this (by decide)
    cases hcs : ctx.compileSucceeds <;> cases hls : ctx.linkSucceeds <;>
      simp [VertexColorGL.construct, h, hmd, hcs, hls]

/-- Witness for C4: flags 1 (uniform buffers) with draw count 0 asserts,
flags 0 with draw count 0 does not. -/
theorem VertexColorGL.construct_drawCount_check_witness :
    VertexColorGL.construct 2 1 0 defaultGLContext = .error .precondition ∧
    VertexColorGL.construct 2 0 0 defaultGLContext ≠ .error .precondition :=
  ⟨(VertexColorGL.construct_drawCount_check 2 1 0 defaultGLContext).1 (by decide),
   (VertexColorGL.construct_drawCount_check 2 0 0 defaultGLContext).2 (by decide)⟩

/-- C5: every flag set containing `Flag::MultiDraw` also contains
`Flag::UniformBuffers`: `MultiDraw` is a strict bitwise superset of
`UniformBuffers`, so every instance passing the multi-draw construction
checks is also in uniform-buffer mode. -/
theorem multiDraw_superset_uniformBuffers (flags : Nat)
    (h : hasFlag flags VertexColorGLFlag.MultiDraw = true) :
    hasFlag flags VertexColorGLFlag.UniformBuffers = true ∧
    VertexColorGLFlag.MultiDraw &&& VertexColorGLFlag.UniformBuffers
      = VertexColorGLFlag.UniformBuffers ∧
    VertexColorGLFlag.UniformBuffers ≠ VertexColorGLFlag.MultiDraw :=
  ⟨hasFlag_mono flags VertexColorGLFlag.MultiDraw VertexColorGLFlag.UniformBuffers
    (by decide) h, by decide, by decide⟩

/-- Witness for C5 at `flags = 3` (exactly `Flag::MultiDraw`). -/
theorem multiDraw_superset_uniformBuffers_witness :
    hasFlag 3 VertexColorGLFlag.UniformBuffers = true ∧
    VertexColorGLFlag.MultiDraw &&& VertexColorGLFlag.UniformBuffers
      = VertexColorGLFlag.UniformBuffers ∧
    VertexColorGLFlag.UniformBuffers ≠ VertexColorGLFlag.MultiDraw :=
  multiDraw_superset_uniformBuffers 3 (by decide)

/-- The `UNIFORM_BUFFERS`/`DRAW_COUNT` define is at least 43 characters long
for any draw count. -/
theorem ubDefine_length (drawCount : Nat) :
    43 ≤ ("#define UNIFORM_BUFFERS\n#define DRAW_COUNT " ++ toString drawCount ++ "\n").length := by
  rw [String.length_append, String.length_append]
  have h : ("#define UNIFORM_BUFFERS\n#define DRAW_COUNT ").length = 43 := by decide
  omega

/-- The `UNIFORM_BUFFERS`/`DRAW_COUNT` define differs from every string
shorter than 43 characters. -/
theorem ubDefine_ne (drawCount : Nat) (s : String) (hs : s.length < 43) :
    ("#define UNIFORM_BUFFERS\n#define DRAW_COUNT " ++ toString drawCount ++ "\n") ≠ s := by
  intro h
  have hl := ubDefine_length drawCount
  rw [h] at hl
  omega

/-- C8: the vertex shader source defines are assembled in a fixed order with
exactly one dimension define (`TWO_DIMENSIONS` when `dimensions = 2`,
`THREE_DIMENSIONS` otherwise); the `UNIFORM_BUFFERS`/`DRAW_COUNT` define is
present iff `Flag::UniformBuffers` is set; the `MULTI_DRAW` define is present
iff `Flag::MultiDraw` is (also) set; and when the construction preconditions
hold, a compile or link failure is an internal assertion, not a recoverable
error. -/
theorem VertexColorGL.source_assembly (dimensions flags drawCount : Nat) (ctx : GLContext)
    (hdc : hasFlag flags VertexColorGLFlag.UniformBuffers = true → 0 < drawCount)
    (hubo : hasFlag flags VertexColorGLFlag.UniformBuffers = true →
      ctx.arbUniformBufferObject = true)
    (hsdp : hasFlag flags VertexColorGLFlag.MultiDraw = true →
      ctx.arbShaderDrawParameters = true) :
    ((vertexShaderDefines dimensions flags drawCount).count "#define TWO_DIMENSIONS\n"
      = if dimensions = 2 then 1 else 0) ∧
    ((vertexShaderDefines dimensions flags drawCount).count "#define THREE_DIMENSIONS\n"
      = if dimensions = 2 then 0 else 1) ∧
    (("#define UNIFORM_BUFFERS\n#define DRAW_COUNT " ++ toString drawCount ++ "\n")
        ∈ vertexShaderDefines dimensions flags drawCount
      ↔ hasFlag flags VertexColorGLFlag.UniformBuffers = true) ∧
    ("#define MULTI_DRAW\n" ∈ vertexShaderDefines dimensions flags drawCount
      ↔ hasFlag flags VertexColorGLFlag.MultiDraw = true) ∧
    ((ctx.compileSucceeds = false ∨ ctx.linkSucceeds = false) →
      VertexColorGL.construct dimensions flags drawCount ctx = .error .internalAssert) := by
  have hne2 : ("#define UNIFORM_BUFFERS\n#define DRAW_COUNT " ++ toString drawCount ++ "\n")
      ≠ "#define TWO_DIMENSIONS\n" := ubDefine_ne drawCount _ (by decide)
  have hne3 : ("#define UNIFORM_BUFFERS\n#define DRAW_COUNT " ++ toString drawCount ++ "\n")
      ≠ "#define THREE_DIMENSIONS\n" := ubDefine_ne drawCount _ (by decide)
  have hnem : ("#define UNIFORM_BUFFERS\n#define DRAW_COUNT " ++ toString drawCount ++ "\n")
      ≠ "#define MULTI_DRAW\n" := ubDefine_ne drawCount _ (by decide)
  have hnee : ("#define UNIFORM_BUFFERS\n#define DRAW_COUNT " ++ toString drawCount ++ "\n")
      ≠ "" := ubDefine_ne drawCount _ (by decide)
  cases hub : hasFlag flags VertexColorGLFlag.UniformBuffers with
  | false =>
    have hmd : hasFlag flags VertexColorGLFlag.MultiDraw = false := by
      cases hc : hasFlag flags VertexColorGLFlag.MultiDraw with
      | false => rfl
      | true =>
        have := hasFlag_mono flags VertexColorGLFlag.MultiDraw
          VertexColorGLFlag.UniformBuffers (by decide) hc
        rw [hub] at this
        exact absurd this (by decide)
    refine ⟨?_, ?_, ?_, ?_, ?_⟩
    · by_cases h2 : dimensions = 2 <;>
        simp [vertexShaderDefines, hub, h2, List.count_cons, List.count_nil]
    · by_cases h2 : dimensions = 2 <;>
        simp [vertexShaderDefines, hub, h2, List.count_cons, List.count_nil]
    · by_cases h2 : dimensions = 2 <;>
        simp [vertexShaderDefines, hub, h2,
          hne2, hne3, hnem, hnee, Ne.symm hne2, Ne.symm hne3, Ne.symm hnem, Ne.symm hnee]
    · by_cases h2 : dimensions = 2 <;>
        simp [vertexShaderDefines, hub, hmd, h2,
          hne2, hne3, hnem, hnee, Ne.symm hne2, Ne.symm hne3, Ne.symm hnem, Ne.symm hnee]
    · intro hcl
      rcases hcl with hc | hl
      · simp [VertexColorGL.construct, hub, hmd, hc]
      · cases hcs : ctx.compileSucceeds <;>
          simp [VertexColorGL.construct, hub, hmd, hcs, hl]
  | true =>
    have hdc0 : (drawCount == 0) = false := by
      have := hdc hub
      simp [Nat.pos_iff_ne_zero] at this
      simp [this]
    have hubo := hubo hub
    cases hmd : hasFlag flags VertexColorGLFlag.MultiDraw with
    | false =>
      refine ⟨?_, ?_, ?_, ?_, ?_⟩
      · by_cases h2 : dimensions = 2 <;>
          simp [vertexShaderDefines, hub, hmd, h2, List.count_cons, List.count_nil,
            hne2, hne3, hnem, hnee, Ne.symm hne2, Ne.symm hne3, Ne.symm hnem, Ne.symm hnee]
      · by_cases h2 : dimensions = 2 <;>
          simp [vertexShaderDefines, hub, hmd, h2, List.count_cons, List.count_nil,
            hne2, hne3, hnem, hnee, Ne.symm hne2, Ne.symm hne3, Ne.symm hnem, Ne.symm hnee]
      · by_cases h2 : dimensions = 2 <;>
          simp [vertexShaderDefines, hub, hmd, h2,
            hne2, hne3, hnem, hnee, Ne.symm hne2, Ne.symm hne3, Ne.symm hnem, Ne.symm hnee]
      · by_cases h2 : dimensions = 2 <;>
          simp [vertexShaderDefines, hub, hmd, h2,
            hne2, hne3, hnem, hnee, Ne.symm hne2, Ne.symm hne3, Ne.symm hnem, Ne.symm hnee]
      · intro hcl
        rcases hcl with hc | hl
        · simp [VertexColorGL.construct, hub, hmd, hdc0, hubo, hc]
        · cases hcs : ctx.compileSucceeds <;>
            simp [VertexColorGL.construct, hub, hmd, hdc0, hubo, hcs, hl]
    | true =>
      have hsdp := hsdp hmd
      refine ⟨?_, ?_, ?_, ?_, ?_⟩
      · by_cases h2 : dimensions = 2 <;>
          simp [vertexShaderDefines, hub, hmd, h2, List.count_cons, List.count_nil,
            hne2, hne3, hnem, hnee, Ne.symm hne2, Ne.symm hne3, Ne.symm hnem, Ne.symm hnee]
      · by_cases h2 : dimensions = 2 <;>
          simp [vertexShaderDefines, hub, hmd, h2, List.count_cons, List.count_nil,
            hne2, hne3, hnem, hnee, Ne.symm hne2, Ne.symm hne3, Ne.symm hnem, Ne.symm hnee]
      · by_cases h2 : dimensions = 2 <;>
          simp [vertexShaderDefines, hub, hmd, h2,
            hne2, hne3, hnem, hnee, Ne.symm hne2, Ne.symm hne3, Ne.symm hnem, Ne.symm hnee]
      · by_cases h2 : dimensions = 2 <;>
          simp [vertexShaderDefines, hub, hmd, h2,
            hne2, hne3, hnem, hnee, Ne.symm hne2, Ne.symm hne3, Ne.symm hnem, Ne.symm hnee]
      · intro hcl
        rcases hcl with hc | hl
        · simp [VertexColorGL.construct, hub, hmd, hdc0, hubo, hsdp, hc]
        · cases hcs : ctx.compileSucceeds <;>
            simp [VertexColorGL.construct, hub, hmd, hdc0, hubo, hsdp, hcs, hl]

/-- Witness for C8 at `dimensions = 2`, `flags = 3` (multi-draw), draw count
2, with a failing-link context derived from `defaultGLContext`. -/
theorem VertexColorGL.source_assembly_witness :
    ((vertexShaderDefines 2 3 2).count "#define TWO_DIMENSIONS\n" = 1) ∧
    ((vertexShaderDefines 2 3 2).count "#define THREE_DIMENSIONS\n" = 0) ∧
    (("#define UNIFORM_BUFFERS\n#define DRAW_COUNT " ++ toString 2 ++ "\n")
        ∈ vertexShaderDefines 2 3 2
      ↔ hasFlag 3 VertexColorGLFlag.UniformBuffers = true) ∧
    ("#define MULTI_DRAW\n" ∈ vertexShaderDefines 2 3 2
      ↔ hasFlag 3 VertexColorGLFlag.MultiDraw = true) ∧
    ((defaultGLContext.compileSucceeds = false ∨ defaultGLContext.linkSucceeds = false) →
      VertexColorGL.construct 2 3 2 defaultGLContext = .error .internalAssert) :=
  VertexColorGL.source_assembly 2 3 2 defaultGLContext
    (fun _ => by decide) (fun _ => by decide) (fun _ => by decide)

/-- C9 counterexample: the claim says an `end` value less than `start`
disables the outline; but per the contract at DistanceFieldVectorGL.h:340-342
it is an `end` value larger than `start` that disables it.  At
`start = 1`, `end = 1/2` we have `end < start`, yet the outline is drawn. -/
theorem outlineRange_claim_counterexample :
    ((1:ℚ)/2 < 1) ∧ outlineDisabled 1 (1/2) = false := by
  constructor
  · norm_num
  · simp [outlineDisabled]
    norm_num

/-- C9 amended: for `DistanceFieldVectorGL::setOutlineRange(start, end)`, when
`end` is set to a value larger than `start` the outline is not drawn (in
particular it is not drawn at the initial values `start = 0.5`, `end = 1.0`),
and on a direct-mode instance the call uploads `(start, end)` to the
outline-range uniform. -/
theorem setOutlineRange_amended (d : DistanceFieldVectorGL)
    (outlineStart outlineEnd : ℚ)
    (hd : hasFlag d.flags DistanceFieldVectorGLFlag.UniformBuffers = false)
    (h : outlineStart < outlineEnd) :
    outlineDisabled outlineStart outlineEnd = true ∧
    initialOutlineStart = 1/2 ∧ initialOutlineEnd = 1 ∧
    outlineDisabled initialOutlineStart initialOutlineEnd = true ∧
    DistanceFieldVectorGL.setOutlineRange d outlineStart outlineEnd
      = .ok { d with glLog := GLCmd.setUniform d.outlineRangeUniform (UniformValue.vector2 outlineStart outlineEnd) :: d.glLog } := by
  refine ⟨?_, rfl, rfl, ?_, ?_⟩
  · simp [outlineDisabled, h]
  · simp [outlineDisabled, initialOutlineStart, initialOutlineEnd]
    norm_num
  · simp [DistanceFieldVectorGL.setOutlineRange, hd]

/-- Witness for the amended C9 on `sampleDFVDirect` at the initial range
values. -/
theorem setOutlineRange_amended_witness :
    outlineDisabled (1/2) 1 = true ∧
    initialOutlineStart = 1/2 ∧ initialOutlineEnd = 1 ∧
    outlineDisabled initialOutlineStart initialOutlineEnd = true ∧
    DistanceFieldVectorGL.setOutlineRange sampleDFVDirect (1/2) 1
      = .ok { sampleDFVDirect with glLog := GLCmd.setUniform sampleDFVDirect.outlineRangeUniform (UniformValue.vector2 (1/2) 1) :: sampleDFVDirect.glLog } :=
  setOutlineRange_amended sampleDFVDirect (1/2) 1 (by decide) (by norm_num)

end Shaders

end Magnum
